import Mathlib

/-
  Verification development for the ServiceHub service-portal backend
  (FastAPI + SQLAlchemy).  The Python sources under backend/app/ are
  shallowly embedded below: pure helpers become Lean functions, the
  database becomes an explicit record of table rows, HTTP-error paths
  become Option/result values, and external collaborators (the jose JWT
  library, the passlib hash verifier, the jinja2 renderer, the nginx
  docker container) are modelled as explicit oracle parameters.
  DateTime columns are not modelled: no verified property mentions them.
-/

namespace ServiceHub

/-! ### Generic character-list helpers (Python string primitives) -/

/-- Python `s.startswith(pre)` on explicit character lists. -/
def charPrefixOf : List Char → List Char → Bool
  | [], _ => true
  | _ :: _, [] => false
  | a :: as, b :: bs => a == b && charPrefixOf as bs

/-- Python substring test `needle in hay` on character lists. -/
def charSub : List Char → List Char → Bool
  | needle, [] => needle.isEmpty
  | needle, c :: rest => charPrefixOf needle (c :: rest) || charSub needle rest

/-- Python substring test `needle in hay` on strings. -/
def strIn (needle hay : String) : Bool := charSub needle.data hay.data

/-- The Unicode whitespace set CPython's `str.strip()` and `int()`
remove (`Py_UNICODE_ISSPACE`): 0x09-0x0D, 0x1C-0x20, NEL, NBSP, OGHAM
SPACE MARK, the 0x2000-0x200A spaces, LINE/PARAGRAPH SEPARATOR, NARROW
NBSP, MEDIUM MATHEMATICAL SPACE and IDEOGRAPHIC SPACE. -/
def pySpace (c : Char) : Bool :=
  let n := c.toNat
  (0x09 ≤ n && n ≤ 0x0D) || (0x1C ≤ n && n ≤ 0x20) || n == 0x85 || n == 0xA0 ||
  n == 0x1680 || (0x2000 ≤ n && n ≤ 0x200A) || n == 0x2028 || n == 0x2029 ||
  n == 0x202F || n == 0x205F || n == 0x3000

/-- Python `str.strip()` of surrounding whitespace, as performed by `int()`. -/
def pyStripWs (l : List Char) : List Char :=
  ((l.dropWhile pySpace).reverse.dropWhile pySpace).reverse

/-- First code points of the Unicode `Nd` (decimal-digit) blocks, each a
run of ten consecutive code points carrying the values 0-9.  This is the
Unicode 14.0 table CPython 3.11 ships; later Unicode versions only add
further blocks. -/
def ndRangeStarts : List Nat :=
  [0x30, 0x660, 0x6F0, 0x7C0, 0x966, 0x9E6, 0xA66, 0xAE6, 0xB66, 0xBE6,
   0xC66, 0xCE6, 0xD66, 0xDE6, 0xE50, 0xED0, 0xF20, 0x1040, 0x1090, 0x17E0,
   0x1810, 0x1946, 0x19D0, 0x1A80, 0x1A90, 0x1B50, 0x1BB0, 0x1C40, 0x1C50,
   0xA620, 0xA8D0, 0xA900, 0xA9D0, 0xA9F0, 0xAA50, 0xABF0, 0xFF10, 0x104A0,
   0x10D30, 0x11066, 0x110F0, 0x11136, 0x111D0, 0x112F0, 0x11450, 0x114D0,
   0x11650, 0x116C0, 0x11730, 0x118E0, 0x11950, 0x11C50, 0x11D50, 0x11DA0,
   0x16A60, 0x16AC0, 0x16B50, 0x1D7CE, 0x1D7D8, 0x1D7E2, 0x1D7EC, 0x1D7F6,
   0x1E140, 0x1E2F0, 0x1E950, 0x1FBF0]

/-- The decimal value CPython assigns a character: its offset inside an
`Nd` block, `none` when the character is not a Unicode decimal digit. -/
def pyDigitVal? (c : Char) : Option Nat :=
  (ndRangeStarts.find? (fun b => b ≤ c.toNat && c.toNat ≤ b + 9)).map
    (fun b => c.toNat - b)

/-- Digit scanner of CPython `int()` after sign stripping: Unicode
decimal digits with single underscores allowed only BETWEEN digits.
`prevDigit` records whether the previous character was a digit, so that
an underscore — or the end of the string — is legal at this point. -/
def pyDigitsGo (acc : Nat) (prevDigit : Bool) : List Char → Option Nat
  | [] => if prevDigit then some acc else none
  | c :: rest =>
    if c = '_' then
      if prevDigit then pyDigitsGo acc false rest else none
    else
      match pyDigitVal? c with
      | some d => pyDigitsGo (10 * acc + d) true rest
      | none => none

/-- The digit part of CPython `int()`: nonempty, starting and ending with
a digit, underscores single and between digits only (`int("1_0") == 10`
while `int("_1")`, `int("1_")` and `int("1__0")` all raise). -/
def pyIntDigits? (l : List Char) : Option Nat :=
  if l.isEmpty then none else pyDigitsGo 0 false l

/-- CPython `int(s)` in base 10: strip surrounding Unicode whitespace, an
optional sign, then Unicode decimal digits with underscore grouping. -/
def pyInt? (s : String) : Option Int :=
  match pyStripWs s.data with
  | '+' :: rest => (pyIntDigits? rest).map Int.ofNat
  | '-' :: rest => (pyIntDigits? rest).map (fun n => -(n : Int))
  | l => (pyIntDigits? l).map Int.ofNat

/-- `rsplit(":", 1)` on a character list: split at the last colon, returning
the parts before and after it, or `none` when no colon occurs. -/
def rsplitColon : List Char → Option (List Char × List Char)
  | [] => none
  | c :: rest =>
    match rsplitColon rest with
    | some (a, b) => some (c :: a, b)
    | none => if c == ':' then some ([], rest) else none

/-- Python `str.strip("/")`: drop leading and trailing slashes. -/
def stripSlashes (l : List Char) : List Char :=
  ((l.dropWhile (· == '/')).reverse.dropWhile (· == '/')).reverse

/-- Python `str.split("/", 1)`: the part before the first slash, and the
part after it when a slash occurs. -/
def splitFirstSlash : List Char → List Char × Option (List Char)
  | [] => ([], none)
  | c :: rest =>
    if c == '/' then ([], some rest)
    else
      let (a, b) := splitFirstSlash rest
      (c :: a, b)

/-- Python `str.split(sep)` for a single-character separator. -/
def splitOnChar (sep : Char) : List Char → List (List Char)
  | [] => [[]]
  | c :: rest =>
    let ps := splitOnChar sep rest
    if c == sep then [] :: ps
    else
      match ps with
      | [] => [[c]]
      | p :: tl => (c :: p) :: tl

/-- Fuel-driven core of Python `str.replace(pat, rep)`: non-overlapping
matches replaced left to right.  The fuel starts at the input length, so
it never runs out. -/
def charReplaceGo (pat rep : List Char) : Nat → List Char → List Char
  | _, [] => []
  | 0, l => l
  | fuel + 1, c :: rest =>
    if !pat.isEmpty && charPrefixOf pat (c :: rest) then
      rep ++ charReplaceGo pat rep fuel (rest.drop (pat.length - 1))
    else c :: charReplaceGo pat rep fuel rest

/-- Python `s.replace(pat, rep)`. -/
def pyReplace (s pat rep : String) : String :=
  String.mk (charReplaceGo pat.data rep.data s.data.length s.data)

/-- Fuel-driven core of Python `str.split(sep)` for a multi-character
separator. -/
def splitOnSubGo (sep : List Char) : Nat → List Char → List (List Char)
  | _, [] => [[]]
  | 0, l => [l]
  | fuel + 1, c :: rest =>
    if !sep.isEmpty && charPrefixOf sep (c :: rest) then
      [] :: splitOnSubGo sep fuel (rest.drop (sep.length - 1))
    else
      match splitOnSubGo sep fuel rest with
      | [] => [[c]]
      | p :: ps => (c :: p) :: ps

/-- Python `s.split(sep)` for a string separator. -/
def pySplit (s sep : String) : List String :=
  (splitOnSubGo sep.data s.data.length s.data).map String.mk

/-- Python `s.startswith(pre)` on strings. -/
def pyStartsWith (s pre : String) : Bool := charPrefixOf pre.data s.data

/-! ### parse_service_url (backend/app/auth.py lines 29-73) -/

/-- The record returned by `parse_service_url`. -/
structure ParsedUrl where
  protocol : String
  host : String
  port : Option Int
  path : String
  is_ip : Bool
deriving DecidableEq

/-- One dotted group of the IP regex: one to three decimal digits.
`\d` in a Python 3 `str` pattern matches any Unicode decimal digit
(category Nd), hence the `pyDigitVal?` test. -/
def ipPart (p : List Char) : Bool :=
  !p.isEmpty && p.length ≤ 3 && p.all (fun c => (pyDigitVal? c).isSome)

/-- `bool(re.match(r"^(\d{1,3}\.){3}\d{1,3}$", host))`: four dot-separated
groups of one to three digits.  `re.match` with a final `$` also accepts one
trailing newline, which the `dropLast` branch reproduces.  Because `.` and
the digit class are disjoint the regex engine never backtracks, so the
greedy maximal-run reading used here is exact. -/
def isIpHost (host : List Char) : Bool :=
  let h := if host.getLast? == some '\n' then host.dropLast else host
  let parts := splitOnChar '.' h
  parts.length == 4 && parts.all ipPart

/-- Characters that terminate the network-location component in
`urllib.parse.urlsplit`. -/
def netlocEnd (c : Char) : Bool := c == '/' || c == '?' || c == '#'

/-- Cut a path at its first semicolon (`_splitparams` helper). -/
def cutAtFirstSemi (l : List Char) : List Char := l.takeWhile (· ≠ ';')

/-- `urllib.parse._splitparams`: drop the `;parameters` suffix of the last
path segment, when there is one. -/
def splitParamsCore (l : List Char) : List Char :=
  if l.any (· == ';') then
    if l.any (· == '/') then
      let rev := l.reverse
      let suf := (rev.takeWhile (· ≠ '/')).reverse
      let pre := (rev.dropWhile (· ≠ '/')).reverse
      if suf.any (· == ';') then pre ++ cutAtFirstSemi suf else l
    else cutAtFirstSemi l
  else l

/-- `urllib.parse.urlparse` restricted to the inputs `parse_service_url`
feeds it (absolute URLs beginning `http://` or `https://`): the
network location and the params-stripped path after the scheme prefix. -/
def urlNetlocPath (rest : List Char) : List Char × List Char :=
  let netloc := rest.takeWhile (fun c => !netlocEnd c)
  let after := rest.drop netloc.length
  let rawPath := after.takeWhile (fun c => c ≠ '?' && c ≠ '#')
  (netloc, splitParamsCore rawPath)

/-- `parse_service_url` (auth.py): normalise the scheme, split the network
location on its last colon into host and port (`int` failure giving
`None`), fall back to the first path segment when the host is empty, and
test the host against the IPv4 regex. -/
def parse_service_url (url : String) : ParsedUrl :=
  if url = "" then ⟨"http", "", none, "", false⟩
  else
    let u :=
      if charPrefixOf "http://".data url.data || charPrefixOf "https://".data url.data then
        url.data
      else "http://".data ++ url.data
    let isHttps := charPrefixOf "https://".data u
    let protocol := if isHttps then "https" else "http"
    let rest := u.drop (if isHttps then 8 else 7)
    let (netloc, ppath) := urlNetlocPath rest
    let (host0, port) :=
      if netloc.any (· == ':') then
        match rsplitColon netloc with
        | some (h, ps) => (h, pyInt? (String.mk ps))
        | none => (netloc, none)
      else (netloc, none)
    let (host1, path1) :=
      if host0.isEmpty && !ppath.isEmpty then
        let stripped := stripSlashes ppath
        let (p0, p1) := splitFirstSlash stripped
        (p0, match p1 with
             | some tl => '/' :: tl
             | none => ([] : List Char))
      else (host0, ppath)
    let path2 :=
      if !path1.isEmpty && !charPrefixOf ['/'] path1 then '/' :: path1 else path1
    ⟨protocol, String.mk host1, port, String.mk path2, isIpHost host1⟩

/-! ### Data model (backend/app/models.py)

DateTime columns (request_date, created_at, …) are omitted throughout:
no claim refers to them. -/

/-- `models.UserStatus`. -/
inductive UStatus
  | pending
  | approved
  | rejected
deriving DecidableEq

/-- `models.RequestStatus` (service-request state machine). -/
inductive RequestStatus
  | pending
  | approved
  | rejected
  | removePending
deriving DecidableEq

/-- A `users` row. -/
structure AppUser where
  id : Nat
  email : String
  hashedPassword : String
  isAdmin : Bool
  status : UStatus
deriving DecidableEq

/-- A `services` row.  `models.Service` declares id, name, protocol, host,
port, base_path, description, show_info, is_ip, group_id — and, crucially
for the access gate, NO `is_public` column. -/
structure ServiceRow where
  id : String
  name : String
  protocol : String
  host : String
  port : Option Int
  base_path : Option String
  description : Option String
  show_info : Bool
  is_ip : Bool
deriving DecidableEq

/-- A `service_requests` row. -/
structure SReq where
  id : Nat
  userId : Nat
  serviceId : String
  status : RequestStatus
  adminCreated : Bool
  userRemoved : Bool
deriving DecidableEq

/-- A `user_services` association row (a Grant). -/
structure Grant where
  userId : Nat
  serviceId : String
  showInfo : Bool
deriving DecidableEq

/-- A `service_status` history row (only the service reference is needed). -/
structure StatusRow where
  id : Nat
  serviceId : String
deriving DecidableEq

/-- A `service_access` monitoring row (`models.ServiceAccess`); both
foreign keys are nullable. -/
structure AccessRow where
  id : Nat
  serviceId : Option String
  userId : Option Nat
  isActive : Bool
deriving DecidableEq

/-- The relational state the claims touch: one field per table.
`nextRequestId` models the autoincrement key of `service_requests`. -/
structure DbState where
  services : List ServiceRow
  users : List AppUser
  requests : List SReq
  grants : List Grant
  allowed : List (Nat × String)
  statusHistory : List StatusRow
  accessEvents : List AccessRow
  nextRequestId : Nat
deriving DecidableEq

/-! ### The access gate auth_check (backend/app/auth.py lines 625-886) -/

/-- The claims carried by a decoded JWT: `sub` and `user_id`, both
optional, exactly the keys `auth_check` reads. -/
structure TokenPayload where
  sub : Option String
  userId : Option Nat
deriving DecidableEq

/-- Outcome of the `/auth` endpoint.  `allowStatic` is the pre-token
static-resource shortcut, `allow` the authenticated success body,
`denied` a `Response(status_code=…)`, and `serverError` the generic
`except Exception` 500 handler. -/
inductive GateResult
  | allowStatic (email : String)
  | allow (email : String) (userId : Nat) (isAdmin : Bool)
  | denied (code : Nat) (content : String)
  | serverError
deriving DecidableEq

/-- Lower-case a string, for Starlette's case-insensitive header lookup. -/
def lowerStr (s : String) : String := String.mk (s.data.map Char.toLower)

/-- `request.headers.get(name)`: first header whose name matches
case-insensitively. -/
def headerGet (hs : List (String × String)) (name : String) : Option String :=
  (hs.find? (fun kv => lowerStr kv.1 == lowerStr name)).map (·.2)

/-- The `static_patterns` list of `auth_check`, verbatim. -/
def static_patterns : List String :=
  ["/assets/", "/static/", "/js/", "/css/", "/images/", "/fonts/", "/dist/",
   "/public/", "/_stcore/", "favicon.ico", ".js", ".css", ".png", ".jpg",
   ".jpeg", ".gif", ".svg", ".woff", ".woff2", ".ttf", ".eot", ".map"]

/-- The `login_patterns` list of `auth_check`, verbatim. -/
def login_patterns : List String :=
  ["/login", "/register", "/users/sign_in", "/-/"]

/-- The fallback token header names tried in step 2 of the extraction. -/
def authHeaderNames : List String :=
  ["X-Auth-Token", "X-Access-Token", "X-JWT-Token", "X-Token", "ID-Token",
   "auth", "jwt"]

/-- The candidate cookie names tried in step 4 of the extraction. -/
def cookieTokenNames : List String :=
  ["token", "access_token", "jwt", "jwt_token", "Authorization",
   "auth_token", "id_token", "session_token"]

/-- `re.search(r"[?&]token=([^&]+)", s)`: leftmost `?token=` or `&token=`
followed by at least one non-`&` character; the greedy group runs to the
next `&` or the end. -/
def tokenParamSearch : List Char → Option (List Char)
  | [] => none
  | c :: rest =>
    if (c == '?' || c == '&') && charPrefixOf "token=".data rest then
      let v := (rest.drop 6).takeWhile (· ≠ '&')
      if v.isEmpty then tokenParamSearch rest else some v
    else tokenParamSearch rest

/-- The character class `[\w\-]` (equally `[\w\-_]`) of the JWT-shape
regex, for ASCII input. -/
def jwtClassChar (c : Char) : Bool := c.isAlphanum || c == '_' || c == '-'

/-- Match `eyJ[\w\-]+\.eyJ[\w\-]+\.[\w\-_]+` anchored at the head of the
list.  `.` is outside the character class, so greedy maximal runs are
exact and no backtracking arises. -/
def jwtMatchAt (l : List Char) : Option (List Char) :=
  if charPrefixOf "eyJ".data l then
    let r1 := l.drop 3
    let a := r1.takeWhile jwtClassChar
    if a.isEmpty then none
    else
      match r1.drop a.length with
      | '.' :: r2 =>
        if charPrefixOf "eyJ".data r2 then
          let r3 := r2.drop 3
          let b := r3.takeWhile jwtClassChar
          if b.isEmpty then none
          else
            match r3.drop b.length with
            | '.' :: r4 =>
              let c := r4.takeWhile jwtClassChar
              if c.isEmpty then none
              else some ("eyJ".data ++ a ++ '.' :: ("eyJ".data ++ b ++ '.' :: c))
            | _ => none
        else none
      | _ => none
  else none

/-- `re.search` of the JWT-shape regex: try each start position from the
left. -/
def jwtSearch : List Char → Option (List Char)
  | [] => none
  | c :: rest =>
    match jwtMatchAt (c :: rest) with
    | some m => some m
    | none => jwtSearch rest

/-- Step 5 of the extraction: scan every header value containing `eyJ`
for a JWT-shaped substring, first hit wins. -/
def scanHeadersForJwt (hs : List (String × String)) : Option String :=
  hs.findSome? (fun kv =>
    if strIn "eyJ" kv.2 then (jwtSearch kv.2.data).map String.mk else none)

/-- Python `item.split("=", 1)` for cookie items that contain `=`. -/
def splitFirstEq (s : String) : Option (String × String) :=
  if s.data.any (· == '=') then
    some (String.mk (s.data.takeWhile (· ≠ '=')),
          String.mk ((s.data.dropWhile (· ≠ '=')).drop 1))
  else none

/-- Parse the Cookie header as `auth_check` does: split on `"; "`, keep
items containing `=`, split each at its first `=`. -/
def parseCookies (s : String) : List (String × String) :=
  (pySplit s "; ").filterMap splitFirstEq

/-- Python dict lookup built by repeated assignment: the LAST occurrence
of a key wins. -/
def lookupLast (l : List (String × String)) (k : String) : Option String :=
  (l.reverse.find? (fun kv => kv.1 == k)).map (·.2)

/-- Steps 1-5 of `auth_check`'s token extraction, returning `""` when no
source yields a token (Python keeps `auth_token = None`/falsy).  Each
step only fires when every earlier step produced a falsy value, exactly
as the `if not auth_token` guards chain in the source. -/
def extractToken (hs : List (String × String)) (request_uri : String) : String :=
  let tokenHdr := (headerGet hs "Authorization").getD ""
  let a1 :=
    if tokenHdr ≠ "" then
      if strIn "Bearer" tokenHdr then pyReplace tokenHdr "Bearer " "" else tokenHdr
    else ""
  let a2 :=
    if a1 ≠ "" then a1
    else
      (authHeaderNames.findSome? (fun n =>
        match headerGet hs n with
        | some v => if v ≠ "" then some v else none
        | none => none)).getD ""
  let a3 :=
    if a2 ≠ "" then a2
    else if strIn "token=" request_uri then
      ((tokenParamSearch request_uri.data).map String.mk).getD ""
    else ""
  let referer := (headerGet hs "Referer").getD ""
  let a3b :=
    if a3 ≠ "" then a3
    else if strIn "token=" referer then
      ((tokenParamSearch referer.data).map String.mk).getD ""
    else ""
  let cookieHdr := (headerGet hs "Cookie").getD ""
  let a4 :=
    if a3b ≠ "" then a3b
    else if cookieHdr ≠ "" then
      let dict := parseCookies cookieHdr
      match cookieTokenNames.findSome? (fun n => lookupLast dict n) with
      | some v => if pyStartsWith v "Bearer " then pyReplace v "Bearer " "" else v
      | none => ""
    else ""
  if a4 ≠ "" then a4 else (scanHeadersForJwt hs).getD ""

/-- The `/auth` access gate.  `decode` stands for
`jwt.decode(token, SECRET_KEY, algorithms=[ALGORITHM])`, returning `none`
on `JWTError` (bad signature, malformed, expired).  `db` carries the
`users`, `services` and `service_access` tables the handler queries.

Two source facts shape the service-gating branch: `int(parts[2])` raises
`ValueError` on the hexadecimal ids `create_service` assigns (the check is
skipped via `pass`), and `models.Service` has no `is_public` attribute, so
a successful lookup raises `AttributeError`, which the outer
`except Exception` turns into a 500 — the `ServiceAccess` permission query
below it is unreachable.  The lookup compares the `String(8)` id column
with a Python int; under SQLite text affinity the int is compared as its
decimal string. -/
def auth_check (decode : String → Option TokenPayload) (db : DbState)
    (hs : List (String × String)) : GateResult :=
  let request_uri := (headerGet hs "X-Original-URI").getD ""
  if (static_patterns ++ login_patterns).any (fun p => strIn p request_uri) then
    .allowStatic "guest@example.com"
  else
    let tok := extractToken hs request_uri
    if tok = "" then .denied 401 "인증이 필요합니다. 로그인 후 이용해주세요."
    else
      match decode tok with
      | none => .denied 401 "유효하지 않은 인증 토큰입니다"
      | some payload =>
        match payload.sub with
        | none => .denied 401 "유효하지 않은 토큰입니다."
        | some email =>
          match db.users.find? (fun u => u.email == email) with
          | none => .denied 401 "등록되지 않은 사용자입니다."
          | some user =>
            if user.status == UStatus.pending && !user.isAdmin then
              .denied 403 "계정이 아직 승인되지 않았습니다."
            else
              if pyStartsWith request_uri "/api/" then
                let parts := pySplit request_uri "/"
                if parts.length > 2 then
                  match pyInt? (parts.getD 2 "") with
                  | none => .allow email user.id user.isAdmin
                  | some n =>
                    match db.services.find? (fun svc => svc.id == toString n) with
                    | some _ => .serverError
                    | none => .allow email user.id user.isAdmin
                else .allow email user.id user.isAdmin
              else .allow email user.id user.isAdmin

/-! ### Nginx config synthesis (backend/app/auth.py lines 76-336 and 553-622) -/

def HTTP_TEMPLATE : String :=
  "\n# HTTP 서비스 [ID: \x7b\x7b service.id \x7d\x7d] 설정\n\n# 모든 요청 처리 (단순화된 패턴)\nlocation ~ ^/api/\x7b\x7b service.id \x7d\x7d/ \x7b\n    # 로깅\n    access_log /var/log/nginx/service_\x7b\x7b service.id \x7d\x7d_access.log;\n    error_log /var/log/nginx/service_\x7b\x7b service.id \x7d\x7d_error.log;\n    \n    # 인증 추가 - 정적 리소스는 인증 건너뛰기\n    auth_request /auth;\n    auth_request_set $auth_status $upstream_status;\n    \n    # 경로 재작성 (정적 리소스 패턴 제외)\n    rewrite ^/api/\x7b\x7b service.id \x7d\x7d/(.*)$ /$1 break;\n    \n    # 프록시 설정\n    proxy_pass \x7b% if service.protocol == \"https\" %\x7dhttps\x7b% else %\x7dhttp\x7b% endif %\x7d://\x7b\x7b service.host \x7d\x7d\x7b% if service.port %\x7d:\x7b\x7b service.port \x7d\x7d\x7b% endif %\x7d;\n    proxy_set_header Host \x7b\x7b service.host \x7d\x7d\x7b% if service.port %\x7d:\x7b\x7b service.port \x7d\x7d\x7b% endif %\x7d;\n    \n    # 기본 프록시 헤더\n    proxy_set_header X-Real-IP $remote_addr;\n    proxy_set_header X-Forwarded-For $proxy_add_x_forwarded_for;\n    proxy_set_header X-Forwarded-Proto $scheme;\n    proxy_set_header X-Original-URI $request_uri;\n    \n    # Streamlit 및 기타 앱을 위한 Content-Type 헤더 추가\n    proxy_set_header Accept \"text/html,application/xhtml+xml,application/xml;q=0.9,image/webp,*/*;q=0.8\";\n    \n    # 웹소켓 지원 추가 (Streamlit 앱에 필요)\n    proxy_http_version 1.1;\n    proxy_set_header Upgrade $http_upgrade;\n    proxy_set_header Connection \"upgrade\";\n    \n    # 버퍼 설정 추가 (대용량 데이터 전송 시 필요)\n    proxy_buffers 8 32k;\n    proxy_buffer_size 64k;\n    \n    # 안정적인 프록시 설정\n    proxy_read_timeout 300s;\n    proxy_send_timeout 300s;\n    proxy_connect_timeout 60s;\n    \n    \x7b% if service.protocol == \"https\" %\x7d\n    # SSL 설정\n    proxy_ssl_server_name on;\n    proxy_ssl_verify off;\n    \x7b% endif %\x7d\n    \n    # CORS 설정\n    add_header 'Access-Control-Allow-Origin' '*' always;\n    add_header 'Access-Control-Allow-Methods' 'GET, POST, OPTIONS, PUT, DELETE' always;\n    add_header 'Access-Control-Allow-Headers' '*' always;\n    \n    # 응답 내용 필터링 - HTML 응답만 처리\n    proxy_set_header Accept-Encoding \"\";\n    sub_filter_types text/html text/css application/javascript;\n    sub_filter_once off;\n    \n    # 기본 경로 변환 - 정확한 문자열 패턴으로 변경\n    sub_filter 'href=\"/assets/' 'href=\"/api/\x7b\x7b service.id \x7d\x7d/assets/';\n    sub_filter 'src=\"/assets/' 'src=\"/api/\x7b\x7b service.id \x7d\x7d/assets/';\n    sub_filter 'url(\"/assets/' 'url(\"/api/\x7b\x7b service.id \x7d\x7d/assets/';\n    sub_filter 'url(/assets/' 'url(/api/\x7b\x7b service.id \x7d\x7d/assets/';\n    \n    sub_filter 'href=\"/static/' 'href=\"/api/\x7b\x7b service.id \x7d\x7d/static/';\n    sub_filter 'src=\"/static/' 'src=\"/api/\x7b\x7b service.id \x7d\x7d/static/';\n    sub_filter 'url(\"/static/' 'url(\"/api/\x7b\x7b service.id \x7d\x7d/static/';\n    sub_filter 'url(/static/' 'url(/api/\x7b\x7b service.id \x7d\x7d/static/';\n    \n    sub_filter 'href=\"/js/' 'href=\"/api/\x7b\x7b service.id \x7d\x7d/js/';\n    sub_filter 'src=\"/js/' 'src=\"/api/\x7b\x7b service.id \x7d\x7d/js/';\n    sub_filter 'url(\"/js/' 'url(\"/api/\x7b\x7b service.id \x7d\x7d/js/';\n    sub_filter 'url(/js/' 'url(/api/\x7b\x7b service.id \x7d\x7d/js/';\n    \n    sub_filter 'href=\"/css/' 'href=\"/api/\x7b\x7b service.id \x7d\x7d/css/';\n    sub_filter 'src=\"/css/' 'src=\"/api/\x7b\x7b service.id \x7d\x7d/css/';\n    sub_filter 'url(\"/css/' 'url(\"/api/\x7b\x7b service.id \x7d\x7d/css/';\n    sub_filter 'url(/css/' 'url(/api/\x7b\x7b service.id \x7d\x7d/css/';\n    \n    sub_filter 'href=\"/images/' 'href=\"/api/\x7b\x7b service.id \x7d\x7d/images/';\n    sub_filter 'src=\"/images/' 'src=\"/api/\x7b\x7b service.id \x7d\x7d/images/';\n    sub_filter 'url(\"/images/' 'url(\"/api/\x7b\x7b service.id \x7d\x7d/images/';\n    sub_filter 'url(/images/' 'url(/api/\x7b\x7b service.id \x7d\x7d/images/';\n    \n    # Streamlit 특화 경로 처리\n    sub_filter 'href=\"/_stcore/' 'href=\"/api/\x7b\x7b service.id \x7d\x7d/_stcore/';\n    sub_filter 'src=\"/_stcore/' 'src=\"/api/\x7b\x7b service.id \x7d\x7d/_stcore/';\n    sub_filter 'url(\"/_stcore/' 'url(\"/api/\x7b\x7b service.id \x7d\x7d/_stcore/';\n    sub_filter 'url(/_stcore/' 'url(/api/\x7b\x7b service.id \x7d\x7d/_stcore/';\n    \n    # 더 일반적인 URL 속성 변환 (/ 로 시작하는 경로만 변환)\n    sub_filter 'href=\"/' 'href=\"/api/\x7b\x7b service.id \x7d\x7d/';\n    sub_filter 'src=\"/' 'src=\"/api/\x7b\x7b service.id \x7d\x7d/';\n    sub_filter 'action=\"/' 'action=\"/api/\x7b\x7b service.id \x7d\x7d/';\n    sub_filter 'url(\"/' 'url(\"/api/\x7b\x7b service.id \x7d\x7d/';\n    \n    # 리다이렉트 처리\n    proxy_redirect ~^https?://[^/]+/(.*)$ /api/\x7b\x7b service.id \x7d\x7d/$1;\n\x7d\n\n# CORS 프리플라이트 요청 처리\nlocation ~ ^/api/\x7b\x7b service.id \x7d\x7d/.*$ \x7b\n    if ($request_method = OPTIONS) \x7b\n        add_header 'Access-Control-Allow-Origin' '*' always;\n        add_header 'Access-Control-Allow-Methods' 'GET, POST, OPTIONS, PUT, DELETE' always;\n        add_header 'Access-Control-Allow-Headers' '*' always;\n        add_header 'Access-Control-Max-Age' '1728000' always;\n        add_header 'Content-Type' 'text/plain charset=UTF-8' always;\n        add_header 'Content-Length' '0' always;\n        return 204;\n    \x7d\n    \n    # OPTIONS 외 다른 메서드는 기본 핸들러로\n    return 404;\n\x7d\n"

def HTTPS_TEMPLATE : String :=
  "\n# HTTPS 서비스 [ID: \x7b\x7b service.id \x7d\x7d] 설정\n\n# 모든 요청 처리 (단순화된 패턴)\nlocation ~ ^/api/\x7b\x7b service.id \x7d\x7d/ \x7b\n    # 로깅\n    access_log /var/log/nginx/service_\x7b\x7b service.id \x7d\x7d_access.log;\n    error_log /var/log/nginx/service_\x7b\x7b service.id \x7d\x7d_error.log;\n    \n    # 인증 추가 - 정적 리소스는 인증 건너뛰기\n    auth_request /auth;\n    auth_request_set $auth_status $upstream_status;\n    \n    # 경로 재작성 (정적 리소스 패턴 제외)\n    rewrite ^/api/\x7b\x7b service.id \x7d\x7d/(.*)$ /$1 break;\n    \n    # 프록시 설정\n    proxy_pass https://\x7b\x7b service.host \x7d\x7d\x7b% if service.port %\x7d:\x7b\x7b service.port \x7d\x7d\x7b% endif %\x7d;\n    proxy_set_header Host \x7b\x7b service.host \x7d\x7d\x7b% if service.port %\x7d:\x7b\x7b service.port \x7d\x7d\x7b% endif %\x7d;\n    \n    # 기본 프록시 헤더\n    proxy_set_header X-Real-IP $remote_addr;\n    proxy_set_header X-Forwarded-For $proxy_add_x_forwarded_for;\n    proxy_set_header X-Forwarded-Proto $scheme;\n    proxy_set_header X-Original-URI $request_uri;\n    \n    # Streamlit 및 기타 앱을 위한 Content-Type 헤더 추가\n    proxy_set_header Accept \"text/html,application/xhtml+xml,application/xml;q=0.9,image/webp,*/*;q=0.8\";\n    \n    # 웹소켓 지원 추가 (Streamlit 앱에 필요)\n    proxy_http_version 1.1;\n    proxy_set_header Upgrade $http_upgrade;\n    proxy_set_header Connection \"upgrade\";\n    \n    # 버퍼 설정 추가 (대용량 데이터 전송 시 필요)\n    proxy_buffers 8 32k;\n    proxy_buffer_size 64k;\n    \n    # 안정적인 프록시 설정\n    proxy_read_timeout 300s;\n    proxy_send_timeout 300s;\n    proxy_connect_timeout 60s;\n    \n    # SSL 설정\n    proxy_ssl_server_name on;\n    proxy_ssl_verify off;\n    \n    # CORS 설정\n    add_header 'Access-Control-Allow-Origin' '*' always;\n    add_header 'Access-Control-Allow-Methods' 'GET, POST, OPTIONS, PUT, DELETE' always;\n    add_header 'Access-Control-Allow-Headers' '*' always;\n    \n    # 응답 내용 필터링 - HTML 응답만 처리\n    proxy_set_header Accept-Encoding \"\";\n    sub_filter_types text/html text/css application/javascript;\n    sub_filter_once off;\n    \n    # 기본 경로 변환 - 정확한 문자열 패턴으로 변경\n    sub_filter 'href=\"/assets/' 'href=\"/api/\x7b\x7b service.id \x7d\x7d/assets/';\n    sub_filter 'src=\"/assets/' 'src=\"/api/\x7b\x7b service.id \x7d\x7d/assets/';\n    sub_filter 'url(\"/assets/' 'url(\"/api/\x7b\x7b service.id \x7d\x7d/assets/';\n    sub_filter 'url(/assets/' 'url(/api/\x7b\x7b service.id \x7d\x7d/assets/';\n    \n    sub_filter 'href=\"/static/' 'href=\"/api/\x7b\x7b service.id \x7d\x7d/static/';\n    sub_filter 'src=\"/static/' 'src=\"/api/\x7b\x7b service.id \x7d\x7d/static/';\n    sub_filter 'url(\"/static/' 'url(\"/api/\x7b\x7b service.id \x7d\x7d/static/';\n    sub_filter 'url(/static/' 'url(/api/\x7b\x7b service.id \x7d\x7d/static/';\n    \n    sub_filter 'href=\"/js/' 'href=\"/api/\x7b\x7b service.id \x7d\x7d/js/';\n    sub_filter 'src=\"/js/' 'src=\"/api/\x7b\x7b service.id \x7d\x7d/js/';\n    sub_filter 'url(\"/js/' 'url(\"/api/\x7b\x7b service.id \x7d\x7d/js/';\n    sub_filter 'url(/js/' 'url(/api/\x7b\x7b service.id \x7d\x7d/js/';\n    \n    sub_filter 'href=\"/css/' 'href=\"/api/\x7b\x7b service.id \x7d\x7d/css/';\n    sub_filter 'src=\"/css/' 'src=\"/api/\x7b\x7b service.id \x7d\x7d/css/';\n    sub_filter 'url(\"/css/' 'url(\"/api/\x7b\x7b service.id \x7d\x7d/css/';\n    sub_filter 'url(/css/' 'url(/api/\x7b\x7b service.id \x7d\x7d/css/';\n    \n    sub_filter 'href=\"/images/' 'href=\"/api/\x7b\x7b service.id \x7d\x7d/images/';\n    sub_filter 'src=\"/images/' 'src=\"/api/\x7b\x7b service.id \x7d\x7d/images/';\n    sub_filter 'url(\"/images/' 'url(\"/api/\x7b\x7b service.id \x7d\x7d/images/';\n    sub_filter 'url(/images/' 'url(/api/\x7b\x7b service.id \x7d\x7d/images/';\n    \n    # Streamlit 특화 경로 처리\n    sub_filter 'href=\"/_stcore/' 'href=\"/api/\x7b\x7b service.id \x7d\x7d/_stcore/';\n    sub_filter 'src=\"/_stcore/' 'src=\"/api/\x7b\x7b service.id \x7d\x7d/_stcore/';\n    sub_filter 'url(\"/_stcore/' 'url(\"/api/\x7b\x7b service.id \x7d\x7d/_stcore/';\n    sub_filter 'url(/_stcore/' 'url(/api/\x7b\x7b service.id \x7d\x7d/_stcore/';\n    \n    # 더 일반적인 URL 속성 변환 (/ 로 시작하는 경로만 변환)\n    sub_filter 'href=\"/' 'href=\"/api/\x7b\x7b service.id \x7d\x7d/';\n    sub_filter 'src=\"/' 'src=\"/api/\x7b\x7b service.id \x7d\x7d/';\n    sub_filter 'action=\"/' 'action=\"/api/\x7b\x7b service.id \x7d\x7d/';\n    sub_filter 'url(\"/' 'url(\"/api/\x7b\x7b service.id \x7d\x7d/';\n    \n    # 리다이렉트 처리\n    proxy_redirect ~^https?://[^/]+/(.*)$ /api/\x7b\x7b service.id \x7d\x7d/$1;\n\x7d\n\n# CORS 프리플라이트 요청 처리\nlocation ~ ^/api/\x7b\x7b service.id \x7d\x7d/.*$ \x7b\n    if ($request_method = OPTIONS) \x7b\n        add_header 'Access-Control-Allow-Origin' '*' always;\n        add_header 'Access-Control-Allow-Methods' 'GET, POST, OPTIONS, PUT, DELETE' always;\n        add_header 'Access-Control-Allow-Headers' '*' always;\n        add_header 'Access-Control-Max-Age' '1728000' always;\n        add_header 'Content-Type' 'text/plain charset=UTF-8' always;\n        add_header 'Content-Length' '0' always;\n        return 204;\n    \x7d\n    \n    # OPTIONS 외 다른 메서드는 기본 핸들러로\n    return 404;\n\x7d\n"

def ERROR_TEMPLATE : String :=
  "\n# 인증 실패시 처리\nerror_page 401 = @error401;\n\nlocation @error401 \x7b\n    add_header 'Access-Control-Allow-Origin' '*' always;\n    add_header 'Access-Control-Allow-Methods' 'GET, POST, OPTIONS' always;\n    add_header 'Access-Control-Allow-Headers' 'Authorization,Content-Type' always;\n    return 401;\n\x7d\n"

/-- `get_nginx_config(service)`: pick the template by protocol and render
it.  `render` stands for `jinja2.Template(t).render(service=service)`,
an external library call modelled as an oracle parameter. -/
def get_nginx_config (render : String → ServiceRow → String)
    (service : ServiceRow) : String :=
  if service.protocol == "https" then render HTTPS_TEMPLATE service
  else render HTTP_TEMPLATE service

/-- The nginx container's responses to `nginx -t` and `nginx -s reload`
after the new fragment is on disk (`exec_run(...).exit_code == 0`). -/
structure NginxEnv where
  testExitOk : Bool
  reloadExitOk : Bool
deriving DecidableEq

/-- The `/etc/nginx/services.d` directory as a path-to-content map. -/
structure Fs where
  files : List (String × String)
deriving DecidableEq

/-- `open(path, "w")` followed by `write`: replace any existing file. -/
def fsWrite (fs : Fs) (path content : String) : Fs :=
  ⟨fs.files.filter (fun f => f.1 ≠ path) ++ [(path, content)]⟩

/-- `os.remove(path)`. -/
def fsRemove (fs : Fs) (path : String) : Fs :=
  ⟨fs.files.filter (fun f => f.1 ≠ path)⟩

/-- Read back a file's content, `none` when absent. -/
def fsRead (fs : Fs) (path : String) : Option String :=
  (fs.files.find? (fun f => f.1 == path)).map (·.2)

/-- The per-service fragment path
`f"/etc/nginx/services.d/service_{service.id}.conf"`. -/
def nginxConfigPath (service : ServiceRow) : String :=
  "/etc/nginx/services.d/service_" ++ service.id ++ ".conf"

/-- `update_nginx_config(service)` (auth.py lines 553-622): render the
fragment (the source renders the already-rendered text a second time,
which only matters if a service field itself contains jinja markers),
write it to the per-service file — OVERWRITING any previous fragment at
that path — then test and reload nginx; on either failure delete the file
and raise.  Returns the resulting directory state and the raised message,
if any. -/
def update_nginx_config (render : String → ServiceRow → String)
    (env : NginxEnv) (service : ServiceRow) (fs : Fs) : Fs × Option String :=
  let configContent := render (get_nginx_config render service) service
  let configFile := nginxConfigPath service
  let fs1 := fsWrite fs configFile configContent
  if env.testExitOk = false then
    (fsRemove fs1 configFile,
     some "Failed to update nginx config: Nginx configuration test failed")
  else if env.reloadExitOk = false then
    (fsRemove fs1 configFile,
     some "Failed to update nginx config: Nginx reload failed")
  else (fs1, none)

/-! ### Service deletion (backend/app/services.py lines 1119-1156) -/

/-- The cascading `DELETE /services/{service_id}` body (after its
admin-only guard): `none` models the 404 when the id is unknown (and the
transaction rollback of any failing step).  On success the handler
deletes, in order, the pair's `service_requests` rows (every status), the
`service_status` history, the `user_services` grants and the
`user_allowed_services` rows, then the service row itself.  It never
touches `service_access`; deleting the ORM object makes SQLAlchemy null
out the `service_id` of related `ServiceAccess` rows (the relationship
declares no delete cascade), so those event rows survive with a cleared
reference. -/
def delete_service (serviceId : String) (s : DbState) : Option DbState :=
  match s.services.find? (fun svc => svc.id == serviceId) with
  | none => none
  | some _ =>
    some { s with
      requests := s.requests.filter (fun r => r.serviceId ≠ serviceId),
      statusHistory := s.statusHistory.filter (fun h => h.serviceId ≠ serviceId),
      grants := s.grants.filter (fun g => g.serviceId ≠ serviceId),
      allowed := s.allowed.filter (fun a => a.2 ≠ serviceId),
      accessEvents := s.accessEvents.map (fun e =>
        if e.serviceId = some serviceId then { e with serviceId := none } else e),
      services := s.services.filter (fun svc => svc.id ≠ serviceId) }

/-! ### Access-request registry operations
(backend/app/services.py lines 843-962 and 418-448,
 backend/app/main.py lines 571-616) -/

/-- `user_services` membership test for a (user, service) pair. -/
def hasGrant (s : DbState) (u : Nat) (sv : String) : Bool :=
  s.grants.any (fun g => g.userId == u && g.serviceId == sv)

/-- Replace the first element satisfying `p` by its image under `f`
(SQLAlchemy `query(...).first()` followed by attribute mutation). -/
def updateFirst (p : SReq → Bool) (f : SReq → SReq) : List SReq → List SReq
  | [] => []
  | r :: rest => if p r then f r :: rest else r :: updateFirst p f rest

/-- Delete the first element satisfying `p` (`db.delete(row)`). -/
def removeFirst (p : SReq → Bool) : List SReq → List SReq
  | [] => []
  | r :: rest => if p r then rest else r :: removeFirst p rest

/-- `POST /services/service-requests/{service_id}`
(`create_service_request`): 404 if the service is unknown, 400 if the
pair already has a PENDING or APPROVED request (REMOVE_PENDING does NOT
block), else insert a fresh pending request. -/
def create_service_request (u : Nat) (sv : String) (s : DbState) : Option DbState :=
  if s.services.any (fun svc => svc.id == sv) = false then none
  else if s.requests.any (fun r => r.userId == u && r.serviceId == sv &&
      (r.status == RequestStatus.pending || r.status == RequestStatus.approved)) then
    none
  else
    some { s with
      requests := s.requests ++ [⟨s.nextRequestId, u, sv, RequestStatus.pending, false, false⟩],
      nextRequestId := s.nextRequestId + 1 }

/-- `PUT /services/service-requests/{request_id}/approve`
(`approve_service_request`): whatever the request's current status, set
it to APPROVED and insert a `user_services` grant row.  When the grant
row already exists the composite primary key is violated, the session
rolls back and the handler raises 500 — modelled as `none` with the state
unchanged.  There is no REMOVE_PENDING branch in the source. -/
def approve_service_request (rid : Nat) (s : DbState) : Option DbState :=
  match s.requests.find? (fun r => r.id == rid) with
  | none => none
  | some r =>
    if hasGrant s r.userId r.serviceId then none
    else
      some { s with
        requests := updateFirst (fun q => q.id == rid)
          (fun q => { q with status := RequestStatus.approved }) s.requests,
        grants := s.grants ++ [⟨r.userId, r.serviceId, false⟩] }

/-- `PUT /services/service-requests/{request_id}/reject`
(`reject_service_request`): set the request's status to REJECTED; no
grant change. -/
def reject_service_request (rid : Nat) (s : DbState) : Option DbState :=
  match s.requests.find? (fun r => r.id == rid) with
  | none => none
  | some _ =>
    some { s with
      requests := updateFirst (fun q => q.id == rid)
        (fun q => { q with status := RequestStatus.rejected }) s.requests }

/-- `DELETE /services/service-requests/{request_id}`
(`cancel_service_request`): the caller's own request is deleted unless it
is APPROVED (400). -/
def cancel_service_request (u : Nat) (rid : Nat) (s : DbState) : Option DbState :=
  match s.requests.find? (fun r => r.id == rid && r.userId == u) with
  | none => none
  | some r =>
    if r.status == RequestStatus.approved then none
    else
      some { s with
        requests := removeFirst (fun q => q.id == rid && q.userId == u) s.requests }

/-- `POST /my-services/{service_id}/remove-request`
(`request_service_removal`, main.py): requires the service to exist and
the pair to have an APPROVED request and no REMOVE_PENDING one; then the
approved request itself is flipped to REMOVE_PENDING.  The grant row is
not touched. -/
def request_service_removal (u : Nat) (sv : String) (s : DbState) : Option DbState :=
  if s.services.any (fun svc => svc.id == sv) = false then none
  else
    match s.requests.find? (fun r => r.userId == u && r.serviceId == sv &&
        r.status == RequestStatus.approved) with
    | none => none
    | some _ =>
      if s.requests.any (fun r => r.userId == u && r.serviceId == sv &&
          r.status == RequestStatus.removePending) then none
      else
        some { s with
          requests := updateFirst (fun r => r.userId == u && r.serviceId == sv &&
              r.status == RequestStatus.approved)
            (fun r => { r with status := RequestStatus.removePending }) s.requests }

/-- `DELETE /services/{service_id}/users/{user_id}`
(`delete_service_user`): delete the pair's `user_services` row and every
`service_requests` row for the pair.  The source commits BEFORE checking
`rowcount`, so the deletions take effect even when no grant row existed
(the handler then answers 404/500); the state change is therefore
unconditional. -/
def delete_service_user (sv : String) (u : Nat) (s : DbState) : DbState :=
  { s with
    grants := s.grants.filter (fun g => !(g.userId == u && g.serviceId == sv)),
    requests := s.requests.filter (fun r => !(r.userId == u && r.serviceId == sv)) }

/-- One registry transition: any of the six request/grant operations,
fired with any arguments, whenever the source handler commits. -/
inductive RegStep : DbState → DbState → Prop
  | create (u : Nat) (sv : String) (s s' : DbState) :
      create_service_request u sv s = some s' → RegStep s s'
  | approve (rid : Nat) (s s' : DbState) :
      approve_service_request rid s = some s' → RegStep s s'
  | reject (rid : Nat) (s s' : DbState) :
      reject_service_request rid s = some s' → RegStep s s'
  | cancel (u : Nat) (rid : Nat) (s s' : DbState) :
      cancel_service_request u rid s = some s' → RegStep s s'
  | removal (u : Nat) (sv : String) (s s' : DbState) :
      request_service_removal u sv s = some s' → RegStep s s'
  | removeUser (sv : String) (u : Nat) (s : DbState) :
      RegStep s (delete_service_user sv u s)

/-- States reachable through the registry operations, starting from any
population of registered services and users with no requests and no
grants. -/
inductive RegReachable : DbState → Prop
  | init (svcs : List ServiceRow) (users : List AppUser) :
      RegReachable ⟨svcs, users, [], [], [], [], [], 0⟩
  | step {s s' : DbState} : RegReachable s → RegStep s s' → RegReachable s'

/-! ### Login (backend/app/auth.py lines 930-1042) -/

/-- The claims `login` encodes into its access token: subject, user id,
and a 24-hour expiry (seconds). -/
structure TokenClaims where
  sub : String
  userId : Nat
  expSeconds : Nat
deriving DecidableEq

/-- Outcome of `POST /login`. -/
inductive LoginResult
  | notFound
  | pendingApproval
  | wrongPassword
  | success (accessToken : String) (tokenType : String) (isAdmin : Bool)
      (userId : Nat) (email : String) (expiresIn : Nat)
      (cookies : List (String × String))
deriving DecidableEq

/-- `POST /login` (auth.py): look the user up by email (404 when absent),
reject PENDING users with 403 — REJECTED status is never examined — then
verify the password (401 on mismatch) and answer with a 24-hour token,
the response body fields, and five non-httpOnly cookies.  `verify` stands
for `pwd_context.verify(password, hashed)` and `encode` for
`jwt.encode` inside `create_access_token`. -/
def login (encode : TokenClaims → String) (verify : String → String → Bool)
    (users : List AppUser) (email password : String) : LoginResult :=
  match users.find? (fun u => u.email == email) with
  | none => .notFound
  | some user =>
    if user.status == UStatus.pending then .pendingApproval
    else if verify password user.hashedPassword = false then .wrongPassword
    else
      let accessToken := encode ⟨user.email, user.id, 24 * 60 * 60⟩
      .success accessToken "bearer" user.isAdmin user.id user.email (24 * 60 * 60)
        [("token", accessToken),
         ("user_id", toString user.id),
         ("user_email", user.email),
         ("is_admin", if user.isAdmin then "true" else "false"),
         ("access_token", accessToken)]

/-! ### Invariant predicates and concrete instances used by the theorems -/

/-- Every currently-APPROVED service request has a matching grant row. -/
def approvedHasGrant (s : DbState) : Prop :=
  ∀ r ∈ s.requests, r.status = RequestStatus.approved →
    ∃ g ∈ s.grants, g.userId = r.userId ∧ g.serviceId = r.serviceId

/-- Number of PENDING requests a (user, service) pair currently has. -/
def pendingCount (u : Nat) (sv : String) (s : DbState) : Nat :=
  s.requests.countP (fun r => r.userId == u && r.serviceId == sv &&
    r.status == RequestStatus.pending)

/-- No (user, service) pair has two PENDING requests. -/
def pendingUnique (s : DbState) : Prop := ∀ u sv, pendingCount u sv s ≤ 1

/-- A (user, service) pair currently holds a non-terminal
(PENDING, APPROVED or REMOVE_PENDING) request. -/
def nonTerminalFor (u : Nat) (sv : String) (r : SReq) : Bool :=
  r.userId == u && r.serviceId == sv &&
    (r.status == RequestStatus.pending || r.status == RequestStatus.approved ||
     r.status == RequestStatus.removePending)

/-- A registered service used by the concrete scenarios. -/
def svc1 : ServiceRow :=
  ⟨"s1", "demo", "http", "10.0.0.5", some 8080, none, none, false, true⟩

/-- Initial registry state: one service, no requests, no grants. -/
def st0 : DbState := ⟨[svc1], [], [], [], [], [], [], 0⟩

/-- A state holding a REMOVE_PENDING request together with its grant, as
produced by `request_service_removal` on an approved pair. -/
def stRemovePending : DbState :=
  ⟨[svc1], [], [⟨0, 1, "s1", RequestStatus.removePending, false, false⟩],
   [⟨1, "s1", false⟩], [], [], [], 1⟩

/-- A fully populated state for service `s1`: an approved request, its
grant, an allowed-user row, a status-history row and one access event. -/
def stFull : DbState :=
  ⟨[svc1], [], [⟨0, 1, "s1", RequestStatus.approved, false, false⟩],
   [⟨1, "s1", false⟩], [(1, "s1")], [⟨0, "s1"⟩], [⟨0, some "s1", some 1, true⟩], 1⟩

/-- A services.d directory already holding a fragment for `s1`. -/
def fsWithOld : Fs := ⟨[("/etc/nginx/services.d/service_s1.conf", "OLD-FRAGMENT")]⟩

/-- The state `create_service_request 1 "s1"` produces from `st0`. -/
def stAfterCreate : DbState :=
  ⟨[svc1], [], [⟨0, 1, "s1", RequestStatus.pending, false, false⟩], [], [], [], [], 1⟩

/-! ### Helper lemmas -/

theorem find?_filter_ne_none (l : List (String × String)) (p : String) :
    (l.filter (fun f => f.1 ≠ p)).find? (fun f => f.1 == p) = none := by
  induction l with
  | nil => rfl
  | cons a t ih =>
    by_cases ha : a.1 = p
    · simp [List.filter_cons, ha, ih]
    · simp [List.filter_cons, ha, List.find?_cons, ih]

theorem fsRead_remove_self (fs : Fs) (p : String) :
    fsRead (fsRemove fs p) p = none := by
  simp only [fsRead, fsRemove]
  rw [find?_filter_ne_none]
  rfl

theorem mem_updateFirst {p : SReq → Bool} {f : SReq → SReq} :
    ∀ {l : List SReq} {r₀ r' : SReq}, l.find? p = some r₀ →
      r' ∈ updateFirst p f l → r' ∈ l ∨ r' = f r₀ := by
  intro l
  induction l with
  | nil => intro r₀ r' hf _; simp at hf
  | cons a t ih =>
    intro r₀ r' hf hm
    by_cases hp : p a
    · rw [List.find?_cons_of_pos _ hp] at hf
      injection hf with hf
      subst hf
      simp only [updateFirst, hp, if_true] at hm
      rcases List.mem_cons.mp hm with h | h
      · exact Or.inr h
      · exact Or.inl (List.mem_cons_of_mem _ h)
    · rw [List.find?_cons_of_neg _ hp] at hf
      simp only [updateFirst, hp, if_false] at hm
      rcases List.mem_cons.mp hm with h | h
      · exact Or.inl (h ▸ List.mem_cons_self a t)
      · rcases ih hf h with h' | h'
        · exact Or.inl (List.mem_cons_of_mem _ h')
        · exact Or.inr h'

theorem mem_removeFirst {p : SReq → Bool} :
    ∀ {l : List SReq} {r' : SReq}, r' ∈ removeFirst p l → r' ∈ l := by
  intro l
  induction l with
  | nil => intro r' h; simp [removeFirst] at h
  | cons a t ih =>
    intro r' hm
    by_cases hp : p a
    · simp only [removeFirst, hp, if_true] at hm
      exact List.mem_cons_of_mem _ hm
    · simp only [removeFirst, hp, if_false] at hm
      rcases List.mem_cons.mp hm with h | h
      · exact h ▸ List.mem_cons_self a t
      · exact List.mem_cons_of_mem _ (ih h)

/-! ### Claim theorems -/

/-- C1: the spec requires the gate to enforce Grants on `/api/<id>/…` for
the ids `create_service` actually assigns (eight hex characters of a
UUID4).  The code parses the id with `int(...)`, which raises
`ValueError` on such ids, silently skipping the whole permission block:
here an approved NON-admin user with NO grant row at all reaches the
non-public registered service `ab12cd34` and is allowed. -/
theorem auth_gate_allows_hex_service_id_without_grant :
    auth_check
      (fun t => if t = "tok1" then some ⟨some "u@x.com", some 3⟩ else none)
      ⟨[⟨"ab12cd34", "svc", "http", "10.0.0.5", some 8080, none, none, false, true⟩],
       [⟨3, "u@x.com", "H", false, UStatus.approved⟩], [], [], [], [], [], 0⟩
      [("X-Original-URI", "/api/ab12cd34/data"), ("Authorization", "Bearer tok1")]
      = GateResult.allow "u@x.com" 3 false := by decide

/-- C2 counterexample: a REJECTED non-admin user presenting a validly
signed token is ALLOWED by the gate — `auth_check` only tests the
PENDING status, so the claim's "or rejected" clause fails. -/
theorem auth_gate_allows_rejected_user :
    auth_check
      (fun t => if t = "tokR" then some ⟨some "r@x.com", some 2⟩ else none)
      ⟨[], [⟨2, "r@x.com", "H", false, UStatus.rejected⟩], [], [], [], [], [], 0⟩
      [("X-Original-URI", "/app/page"), ("Authorization", "Bearer tokR")]
      = GateResult.allow "r@x.com" 2 false := by decide

/-- C2 amended: for a non-static request with an extracted, validly
decoded token, the gate looks the user up by the token's subject and (1)
denies 401 when the user does not exist, (2) denies 403 when the user is
pending and not an admin, and (3) otherwise allows — in particular
REJECTED users are treated like approved ones, not denied. -/
theorem auth_gate_user_state_decisions (decode : String → Option TokenPayload)
    (db : DbState) (hs : List (String × String)) (uri tok : String)
    (payload : TokenPayload) (email : String)
    (huri : (headerGet hs "X-Original-URI").getD "" = uri)
    (hstatic : (static_patterns ++ login_patterns).any (fun p => strIn p uri) = false)
    (htok : extractToken hs uri = tok) (htne : tok ≠ "")
    (hdec : decode tok = some payload) (hsub : payload.sub = some email) :
    (db.users.find? (fun u => u.email == email) = none →
       auth_check decode db hs = GateResult.denied 401 "등록되지 않은 사용자입니다.")
    ∧ (∀ u, db.users.find? (fun x => x.email == email) = some u →
        u.status = UStatus.pending → u.isAdmin = false →
        auth_check decode db hs = GateResult.denied 403 "계정이 아직 승인되지 않았습니다.")
    ∧ (∀ u, db.users.find? (fun x => x.email == email) = some u →
        (u.status ≠ UStatus.pending ∨ u.isAdmin = true) →
        pyStartsWith uri "/api/" = false →
        auth_check decode db hs = GateResult.allow email u.id u.isAdmin) := by
  simp only [auth_check, huri, hstatic, Bool.false_eq_true, if_false, htok,
    if_neg htne, hdec, hsub]
  refine ⟨fun hnone => by rw [hnone], fun u hfind hp ha => ?_,
    fun u hfind hna hapi => ?_⟩
  · rw [hfind]
    simp [hp, ha]
  · rw [hfind]
    have hcond : (u.status == UStatus.pending && !u.isAdmin) = false := by
      rcases hna with h1 | h1
      · simp [h1]
      · simp [h1]
    simp [hcond, hapi]

/-- C2 witness: a concrete pending non-admin user with a valid token is
denied 403, by the amended theorem. -/
theorem auth_gate_user_state_decisions_witness :
    auth_check (fun t => if t = "tokP" then some ⟨some "p@x.com", some 5⟩ else none)
      ⟨[], [⟨5, "p@x.com", "H", false, UStatus.pending⟩], [], [], [], [], [], 0⟩
      [("X-Original-URI", "/app/page"), ("Authorization", "Bearer tokP")]
      = GateResult.denied 403 "계정이 아직 승인되지 않았습니다." :=
  (auth_gate_user_state_decisions
    (fun t => if t = "tokP" then some ⟨some "p@x.com", some 5⟩ else none)
    ⟨[], [⟨5, "p@x.com", "H", false, UStatus.pending⟩], [], [], [], [], [], 0⟩
    [("X-Original-URI", "/app/page"), ("Authorization", "Bearer tokP")]
    "/app/page" "tokP" ⟨some "p@x.com", some 5⟩ "p@x.com"
    (by decide) (by decide) (by decide) (by decide) (by decide) rfl).2.1
    ⟨5, "p@x.com", "H", false, UStatus.pending⟩ (by decide) rfl rfl

/-- C3 counterexample: a service already configured on disk loses its
previous fragment when an update fails — the handler overwrites the
per-service file and then deletes it, so the prior configuration is NOT
still in force on disk. -/
theorem update_nginx_config_failure_discards_previous_fragment :
    fsRead fsWithOld (nginxConfigPath svc1) = some "OLD-FRAGMENT"
    ∧ fsRead (update_nginx_config (fun _ _ => "NEW") ⟨false, true⟩ svc1 fsWithOld).1
        (nginxConfigPath svc1) = none
    ∧ (update_nginx_config (fun _ _ => "NEW") ⟨false, true⟩ svc1 fsWithOld).2.isSome
        = true := by decide

/-- C3 amended: whenever proxy validation or reload fails,
`update_nginx_config` raises and deletes the per-service fragment file —
including any previously active fragment that the write overwrote, so
no fragment for the service remains on disk. -/
theorem update_nginx_config_failure_cleanup
    (render : String → ServiceRow → String) (env : NginxEnv)
    (service : ServiceRow) (fs : Fs)
    (henv : env.testExitOk = false ∨ env.reloadExitOk = false) :
    (update_nginx_config render env service fs).2.isSome = true
    ∧ fsRead (update_nginx_config render env service fs).1 (nginxConfigPath service)
        = none := by
  unfold update_nginx_config
  rcases henv with h | h
  · simp [h, fsRead_remove_self]
  · by_cases ht : env.testExitOk = false
    · simp [ht, fsRead_remove_self]
    · simp [ht, h, fsRead_remove_self]

/-- C3 witness: the amended cleanup theorem at a concrete failing
environment and populated directory. -/
theorem update_nginx_config_failure_cleanup_witness :
    (update_nginx_config (fun _ _ => "NEW") ⟨true, false⟩ svc1 fsWithOld).2.isSome = true
    ∧ fsRead (update_nginx_config (fun _ _ => "NEW") ⟨true, false⟩ svc1 fsWithOld).1
        (nginxConfigPath svc1) = none :=
  update_nginx_config_failure_cleanup (fun _ _ => "NEW") ⟨true, false⟩ svc1 fsWithOld
    (Or.inr rfl)

/-- C4 counterexample: `delete_service` does not remove `service_access`
rows — after deleting `s1`, the access-event row is still present (its
service reference nulled by the ORM), while the claim requires zero
`ServiceAccess` rows for the service to remain. -/
theorem delete_service_keeps_access_event_row :
    (delete_service "s1" stFull).map (fun s => s.accessEvents)
      = some [⟨0, none, some 1, true⟩] := by decide

/-- C4 amended: a successful `delete_service` removes every request row
(of any status), every status-history row, every grant and every
allowed-user row for the service, and then the service row itself, so no
surviving row of those tables references the id; access-event rows are
not deleted — they survive with their service reference cleared. -/
theorem delete_service_cascade_postcondition (sid : String) (s s' : DbState)
    (h : delete_service sid s = some s') :
    (∀ r ∈ s'.requests, r.serviceId ≠ sid)
    ∧ (∀ hr ∈ s'.statusHistory, hr.serviceId ≠ sid)
    ∧ (∀ g ∈ s'.grants, g.serviceId ≠ sid)
    ∧ (∀ a ∈ s'.allowed, a.2 ≠ sid)
    ∧ (∀ svc ∈ s'.services, svc.id ≠ sid)
    ∧ (∀ e ∈ s'.accessEvents, e.serviceId ≠ some sid) := by
  unfold delete_service at h
  split at h
  · exact Option.noConfusion h
  · injection h with h
    subst h
    refine ⟨?_, ?_, ?_, ?_, ?_, ?_⟩
    · intro r hr
      simp only [List.mem_filter] at hr
      exact of_decide_eq_true hr.2
    · intro hr hhr
      simp only [List.mem_filter] at hhr
      exact of_decide_eq_true hhr.2
    · intro g hg
      simp only [List.mem_filter] at hg
      exact of_decide_eq_true hg.2
    · intro a ha
      simp only [List.mem_filter] at ha
      exact of_decide_eq_true ha.2
    · intro svc hsvc
      simp only [List.mem_filter] at hsvc
      exact of_decide_eq_true hsvc.2
    · intro e he
      rcases List.mem_map.mp he with ⟨e', _, rfl⟩
      by_cases hc : e'.serviceId = some sid
      · simp [hc]
      · simp [hc]

/-- C4 witness: the cascade post-condition applied to the concrete
populated state (whose deletion result is spelled out), instantiated at
the surviving access-event row. -/
theorem delete_service_cascade_postcondition_witness :
    (⟨0, none, some 1, true⟩ : AccessRow).serviceId ≠ some "s1" :=
  (delete_service_cascade_postcondition "s1" stFull
    ⟨[], [], [], [], [], [], [⟨0, none, some 1, true⟩], 1⟩ (by decide)).2.2.2.2.2
    ⟨0, none, some 1, true⟩ (by decide)

/-- C7 counterexample: approving the REMOVE_PENDING request of a pair
whose grant exists does NOT delete the grant — the handler tries to
insert a duplicate grant row, violates the composite primary key, rolls
back and fails, leaving the grant in place. -/
theorem approve_remove_pending_request_fails :
    approve_service_request 0 stRemovePending = none
    ∧ hasGrant stRemovePending 1 "s1" = true := by decide

/-- C7 amended: `approve_service_request` has no REMOVE_PENDING branch.
Whatever the found request's status (pending included), when the pair
has no grant the approval succeeds and inserts (materializes) a grant
row; when the pair's grant already exists — the situation of every
REMOVE_PENDING request — approval fails with no state change instead of
deleting the grant. -/
theorem approve_service_request_grant_behaviour (s : DbState) (rid : Nat) (r : SReq)
    (hfind : s.requests.find? (fun q => q.id == rid) = some r) :
    (hasGrant s r.userId r.serviceId = false →
      ∃ s', approve_service_request rid s = some s'
        ∧ hasGrant s' r.userId r.serviceId = true
        ∧ s'.grants = s.grants ++ [⟨r.userId, r.serviceId, false⟩])
    ∧ (hasGrant s r.userId r.serviceId = true →
        approve_service_request rid s = none) := by
  unfold approve_service_request
  rw [hfind]
  dsimp only
  constructor
  · intro hng
    rw [if_neg (by simp [hng])]
    refine ⟨_, rfl, ?_, rfl⟩
    simp [hasGrant, List.any_append]
  · intro hg
    rw [if_pos hg]

/-- C7 witness: the grant-behaviour theorem at a concrete pending
request with no grant. -/
theorem approve_service_request_grant_behaviour_witness :
    ∃ s', approve_service_request 7
        ⟨[svc1], [], [⟨7, 1, "s1", RequestStatus.pending, false, false⟩],
         [], [], [], [], 8⟩ = some s'
      ∧ hasGrant s' 1 "s1" = true
      ∧ s'.grants = [] ++ [⟨1, "s1", false⟩] :=
  (approve_service_request_grant_behaviour
    ⟨[svc1], [], [⟨7, 1, "s1", RequestStatus.pending, false, false⟩],
     [], [], [], [], 8⟩ 7
    ⟨7, 1, "s1", RequestStatus.pending, false, false⟩ (by decide)).1 (by decide)

/-- C8: any request whose original URI contains one of the configured
static-asset or public-page substrings is allowed as the anonymous
static result, whatever tokens, users or services exist. -/
theorem static_pattern_allows_anonymous (decode : String → Option TokenPayload)
    (db : DbState) (hs : List (String × String))
    (h : (static_patterns ++ login_patterns).any
      (fun p => strIn p ((headerGet hs "X-Original-URI").getD "")) = true) :
    auth_check decode db hs = GateResult.allowStatic "guest@example.com" := by
  simp only [auth_check]
  rw [if_pos h]

/-- C8 witness: a static-asset URI with no token at all is allowed. -/
theorem static_pattern_allows_anonymous_witness :
    auth_check (fun _ => none) ⟨[], [], [], [], [], [], [], 0⟩
      [("X-Original-URI", "/assets/app.css")]
      = GateResult.allowStatic "guest@example.com" :=
  static_pattern_allows_anonymous (fun _ => none) ⟨[], [], [], [], [], [], [], 0⟩
    [("X-Original-URI", "/assets/app.css")] (by decide)

/-- C10: `/login` looks the user up (404 when absent), rejects PENDING
users with 403 before even looking at the password, rejects wrong
passwords with 401, and otherwise succeeds — the REJECTED status is
never examined, so a rejected non-admin user presenting the correct
password receives a 24-hour token (86400 seconds) and the five
authentication cookies. -/
theorem login_accepts_rejected_user (encode : TokenClaims → String)
    (verify : String → String → Bool) (users : List AppUser)
    (email pw : String) (u : AppUser)
    (hfind : users.find? (fun x => x.email == email) = some u) :
    (u.status = UStatus.pending →
      login encode verify users email pw = LoginResult.pendingApproval)
    ∧ (u.status ≠ UStatus.pending → verify pw u.hashedPassword = false →
        login encode verify users email pw = LoginResult.wrongPassword)
    ∧ (u.status = UStatus.rejected → verify pw u.hashedPassword = true →
        login encode verify users email pw =
          LoginResult.success (encode ⟨u.email, u.id, 24 * 60 * 60⟩) "bearer"
            u.isAdmin u.id u.email (24 * 60 * 60)
            [("token", encode ⟨u.email, u.id, 24 * 60 * 60⟩),
             ("user_id", toString u.id),
             ("user_email", u.email),
             ("is_admin", if u.isAdmin then "true" else "false"),
             ("access_token", encode ⟨u.email, u.id, 24 * 60 * 60⟩)]) := by
  unfold login
  rw [hfind]
  refine ⟨fun hp => by simp [hp], fun hnp hv => ?_, fun hr hv => ?_⟩
  · have : (u.status == UStatus.pending) = false := by simpa using hnp
    simp [this, hv]
  · have hnp : (u.status == UStatus.pending) = false := by simp [hr]
    simp [hnp, hv]

/-- C10 witness: a concrete rejected user with the right password gets
the full success response. -/
theorem login_accepts_rejected_user_witness :
    login (fun _ => "signed-token") (fun p h => p == "pw" && h == "HASH")
      [⟨9, "rj@x.com", "HASH", false, UStatus.rejected⟩] "rj@x.com" "pw"
      = LoginResult.success "signed-token" "bearer" false 9 "rj@x.com" (24 * 60 * 60)
          [("token", "signed-token"), ("user_id", "9"), ("user_email", "rj@x.com"),
           ("is_admin", "false"), ("access_token", "signed-token")] := by
  have h := (login_accepts_rejected_user (fun _ => "signed-token")
    (fun p h => p == "pw" && h == "HASH")
    [⟨9, "rj@x.com", "HASH", false, UStatus.rejected⟩] "rj@x.com" "pw"
    ⟨9, "rj@x.com", "HASH", false, UStatus.rejected⟩ (by decide)).2.2 rfl (by decide)
  simpa using h

/-! ### URL-parser lemmas (C9) -/

theorem charPrefixOf_mem {pre hay : List Char} (h : charPrefixOf pre hay = true) :
    ∀ {c : Char}, c ∈ pre → c ∈ hay := by
  induction pre generalizing hay with
  | nil => intro c hc; exact absurd hc (List.not_mem_nil c)
  | cons a t ih =>
    intro c hc
    cases hay with
    | nil => exact absurd h (by simp [charPrefixOf])
    | cons b bs =>
      simp only [charPrefixOf, Bool.and_eq_true, beq_iff_eq] at h
      rcases List.mem_cons.mp hc with rfl | hc
      · exact h.1 ▸ List.mem_cons_self b bs
      · exact List.mem_cons_of_mem _ (ih h.2 hc)

theorem takeWhile_all {q : Char → Bool} :
    ∀ {l : List Char}, (∀ c ∈ l, q c = true) → l.takeWhile q = l := by
  intro l
  induction l with
  | nil => intro _; rfl
  | cons a t ih =>
    intro hall
    rw [List.takeWhile_cons, hall a (List.mem_cons_self a t)]
    simp only [if_true]
    rw [ih (fun c hc => hall c (List.mem_cons_of_mem _ hc))]

theorem rsplitColon_eq_none :
    ∀ {l : List Char}, (∀ c ∈ l, c ≠ ':') → rsplitColon l = none := by
  intro l
  induction l with
  | nil => intro _; rfl
  | cons a t ih =>
    intro hall
    rw [rsplitColon, ih (fun c hc => hall c (List.mem_cons_of_mem _ hc))]
    have hbeq : (a == ':') = false := by
      simpa using hall a (List.mem_cons_self a t)
    rw [hbeq]
    rfl

theorem rsplitColon_append {a b : List Char}
    (ha : ∀ c ∈ a, c ≠ ':') (hb : ∀ c ∈ b, c ≠ ':') :
    rsplitColon (a ++ ':' :: b) = some (a, b) := by
  induction a with
  | nil =>
    rw [List.nil_append, rsplitColon, rsplitColon_eq_none hb]
    rfl
  | cons x t ih =>
    rw [List.cons_append, rsplitColon,
      ih (fun c hc => ha c (List.mem_cons_of_mem _ hc))]

theorem any_colon_false {l : List Char} (h : ∀ c ∈ l, c ≠ ':') :
    l.any (fun c => c == ':') = false := by
  rw [List.any_eq_false]
  intro c hc
  simpa using h c hc

/-! ### Reachability invariants for the request registry (C5, C6) -/

theorem countP_updateFirst_le (p : SReq → Bool) (f : SReq → SReq) (q : SReq → Bool)
    (hq : ∀ r, q (f r) = false) :
    ∀ l : List SReq, (updateFirst p f l).countP q ≤ l.countP q := by
  intro l
  induction l with
  | nil => exact Nat.le_refl _
  | cons a t ih =>
    by_cases hp : p a
    · simp only [updateFirst, hp, if_true, List.countP_cons, hq]
      simp
    · simp only [updateFirst, hp, Bool.false_eq_true, if_false, List.countP_cons]
      exact Nat.add_le_add_right ih _

theorem countP_removeFirst_le (p q : SReq → Bool) :
    ∀ l : List SReq, (removeFirst p l).countP q ≤ l.countP q := by
  intro l
  induction l with
  | nil => exact Nat.le_refl _
  | cons a t ih =>
    by_cases hp : p a
    · simp only [removeFirst, hp, if_true, List.countP_cons]
      exact Nat.le_add_right _ _
    · simp only [removeFirst, hp, Bool.false_eq_true, if_false, List.countP_cons]
      exact Nat.add_le_add_right ih _

theorem ahg_create {u : Nat} {sv : String} {s s' : DbState}
    (h : create_service_request u sv s = some s') (hinv : approvedHasGrant s) :
    approvedHasGrant s' := by
  unfold create_service_request at h
  split at h
  · exact Option.noConfusion h
  · split at h
    · exact Option.noConfusion h
    · injection h with h
      subst h
      intro r hr happ
      rcases List.mem_append.mp hr with h1 | h1
      · exact hinv r h1 happ
      · simp only [List.mem_singleton] at h1
        rw [h1] at happ
        exact RequestStatus.noConfusion happ

theorem ahg_approve {rid : Nat} {s s' : DbState}
    (h : approve_service_request rid s = some s') (hinv : approvedHasGrant s) :
    approvedHasGrant s' := by
  unfold approve_service_request at h
  split at h
  · exact Option.noConfusion h
  · rename_i r hfind
    split at h
    · exact Option.noConfusion h
    · injection h with h
      subst h
      intro r' hr' happ
      rcases mem_updateFirst hfind hr' with h1 | h1
      · obtain ⟨g, hg, hgu, hgs⟩ := hinv r' h1 happ
        exact ⟨g, List.mem_append_left _ hg, hgu, hgs⟩
      · subst h1
        exact ⟨⟨r.userId, r.serviceId, false⟩,
          List.mem_append_right _ (List.mem_singleton_self _), rfl, rfl⟩

theorem ahg_reject {rid : Nat} {s s' : DbState}
    (h : reject_service_request rid s = some s') (hinv : approvedHasGrant s) :
    approvedHasGrant s' := by
  unfold reject_service_request at h
  split at h
  · exact Option.noConfusion h
  · rename_i r hfind
    injection h with h
    subst h
    intro r' hr' happ
    rcases mem_updateFirst hfind hr' with h1 | h1
    · exact hinv r' h1 happ
    · subst h1
      exact RequestStatus.noConfusion happ

theorem ahg_cancel {u rid : Nat} {s s' : DbState}
    (h : cancel_service_request u rid s = some s') (hinv : approvedHasGrant s) :
    approvedHasGrant s' := by
  unfold cancel_service_request at h
  split at h
  · exact Option.noConfusion h
  · rename_i r hfind
    split at h
    · exact Option.noConfusion h
    · injection h with h
      subst h
      intro r' hr' happ
      exact hinv r' (mem_removeFirst hr') happ

theorem ahg_removal {u : Nat} {sv : String} {s s' : DbState}
    (h : request_service_removal u sv s = some s') (hinv : approvedHasGrant s) :
    approvedHasGrant s' := by
  unfold request_service_removal at h
  split at h
  · exact Option.noConfusion h
  · split at h
    · exact Option.noConfusion h
    · rename_i r hfind
      split at h
      · exact Option.noConfusion h
      · injection h with h
        subst h
        intro r' hr' happ
        rcases mem_updateFirst hfind hr' with h1 | h1
        · exact hinv r' h1 happ
        · subst h1
          exact RequestStatus.noConfusion happ

theorem ahg_removeUser (sv : String) (u : Nat) (s : DbState)
    (hinv : approvedHasGrant s) : approvedHasGrant (delete_service_user sv u s) := by
  intro r' hr' happ
  unfold delete_service_user at hr' ⊢
  rw [List.mem_filter] at hr'
  obtain ⟨g, hg, hgu, hgs⟩ := hinv r' hr'.1 happ
  refine ⟨g, ?_, hgu, hgs⟩
  rw [List.mem_filter]
  refine ⟨hg, ?_⟩
  rw [hgu, hgs]
  exact hr'.2

theorem pu_create {u : Nat} {sv : String} {s s' : DbState}
    (h : create_service_request u sv s = some s') (hinv : pendingUnique s) :
    pendingUnique s' := by
  unfold create_service_request at h
  split at h
  · exact Option.noConfusion h
  · split at h
    · exact Option.noConfusion h
    · rename_i hany
      injection h with h
      subst h
      intro u' sv'
      unfold pendingCount
      rw [List.countP_append]
      by_cases hpair : u = u' ∧ sv = sv'
      · obtain ⟨rfl, rfl⟩ := hpair
        have hz : List.countP
            (fun r => r.userId == u && r.serviceId == sv &&
              r.status == RequestStatus.pending) s.requests = 0 := by
          rw [List.countP_eq_zero]
          intro r hr hqr
          apply hany
          rw [List.any_eq_true]
          refine ⟨r, hr, ?_⟩
          simp only [Bool.and_eq_true, Bool.or_eq_true, beq_iff_eq] at hqr ⊢
          tauto
        rw [hz]
        simp
      · have hqf : List.countP
            (fun r => r.userId == u' && r.serviceId == sv' &&
              r.status == RequestStatus.pending)
            [(⟨s.nextRequestId, u, sv, RequestStatus.pending, false, false⟩ : SReq)] = 0 := by
          rcases not_and_or.mp hpair with hne | hne <;> simp [hne]
        rw [hqf]
        have hone := hinv u' sv'
        unfold pendingCount at hone
        omega

theorem pu_approve {rid : Nat} {s s' : DbState}
    (h : approve_service_request rid s = some s') (hinv : pendingUnique s) :
    pendingUnique s' := by
  unfold approve_service_request at h
  split at h
  · exact Option.noConfusion h
  · split at h
    · exact Option.noConfusion h
    · injection h with h
      subst h
      intro u' sv'
      unfold pendingCount
      refine Nat.le_trans (countP_updateFirst_le _ _ _ ?_ _) (hinv u' sv')
      intro r
      simp

theorem pu_reject {rid : Nat} {s s' : DbState}
    (h : reject_service_request rid s = some s') (hinv : pendingUnique s) :
    pendingUnique s' := by
  unfold reject_service_request at h
  split at h
  · exact Option.noConfusion h
  · injection h with h
    subst h
    intro u' sv'
    unfold pendingCount
    refine Nat.le_trans (countP_updateFirst_le _ _ _ ?_ _) (hinv u' sv')
    intro r
    simp

theorem pu_cancel {u rid : Nat} {s s' : DbState}
    (h : cancel_service_request u rid s = some s') (hinv : pendingUnique s) :
    pendingUnique s' := by
  unfold cancel_service_request at h
  split at h
  · exact Option.noConfusion h
  · split at h
    · exact Option.noConfusion h
    · injection h with h
      subst h
      intro u' sv'
      unfold pendingCount
      exact Nat.le_trans (countP_removeFirst_le _ _ _) (hinv u' sv')

theorem pu_removal {u : Nat} {sv : String} {s s' : DbState}
    (h : request_service_removal u sv s = some s') (hinv : pendingUnique s) :
    pendingUnique s' := by
  unfold request_service_removal at h
  split at h
  · exact Option.noConfusion h
  · split at h
    · exact Option.noConfusion h
    · split at h
      · exact Option.noConfusion h
      · injection h with h
        subst h
        intro u' sv'
        unfold pendingCount
        refine Nat.le_trans (countP_updateFirst_le _ _ _ ?_ _) (hinv u' sv')
        intro r
        simp

theorem pu_removeUser (sv : String) (u : Nat) (s : DbState)
    (hinv : pendingUnique s) : pendingUnique (delete_service_user sv u s) := by
  intro u' sv'
  unfold pendingCount delete_service_user
  exact Nat.le_trans (List.Sublist.countP_le _ (List.filter_sublist _)) (hinv u' sv')

theorem regReachable_pendingUnique {s : DbState} (h : RegReachable s) :
    pendingUnique s := by
  induction h with
  | init svcs users => intro u' sv'; simp [pendingCount]
  | step hprev hstep ih =>
    cases hstep with
    | create u sv s1 s2 hc => exact pu_create hc ih
    | approve rid s1 s2 hc => exact pu_approve hc ih
    | reject rid s1 s2 hc => exact pu_reject hc ih
    | cancel u rid s1 s2 hc => exact pu_cancel hc ih
    | removal u sv s1 s2 hc => exact pu_removal hc ih
    | removeUser sv u s1 => exact pu_removeUser _ _ _ ih

/-- C5 counterexample: the trace create → approve → removal (all through
the source operations) reaches a state whose pair holds a Grant while NO
request is currently approved — the removal request flipped the approved
row to REMOVE_PENDING without touching the grant, so the claimed
"iff" fails. -/
theorem grant_without_approved_request_reachable :
    (((create_service_request 1 "s1" st0).bind (approve_service_request 0)).bind
      (request_service_removal 1 "s1")).map
      (fun s => (hasGrant s 1 "s1",
        s.requests.any (fun r => r.status == RequestStatus.approved)))
      = some (true, false) := by decide

/-- C5 amended: in every state reachable via the registry operations, a
currently-APPROVED request implies a Grant for its pair (the forward
half of the claimed equivalence; the converse direction is refuted by
the counterexample). -/
theorem approved_request_implies_grant {s : DbState} (h : RegReachable s) :
    approvedHasGrant s := by
  induction h with
  | init svcs users => intro r hr _; exact absurd hr (List.not_mem_nil r)
  | step hprev hstep ih =>
    cases hstep with
    | create u sv s1 s2 hc => exact ahg_create hc ih
    | approve rid s1 s2 hc => exact ahg_approve hc ih
    | reject rid s1 s2 hc => exact ahg_reject hc ih
    | cancel u rid s1 s2 hc => exact ahg_cancel hc ih
    | removal u sv s1 s2 hc => exact ahg_removal hc ih
    | removeUser sv u s1 => exact ahg_removeUser _ _ _ ih

/-- C5 witness: the forward invariant at the concrete reachable state
obtained by one create step from the initial state. -/
theorem approved_request_implies_grant_witness : approvedHasGrant stAfterCreate :=
  approved_request_implies_grant
    (RegReachable.step (RegReachable.init [svc1] [])
      (RegStep.create 1 "s1" st0 stAfterCreate (by decide)))

/-- C6 counterexample: after create → approve → removal the pair holds a
REMOVE_PENDING request, yet `create_service_request` succeeds again
(it only checks PENDING/APPROVED), leaving TWO non-terminal requests for
the same (user, service) pair. -/
theorem double_nonterminal_requests_reachable :
    ((((create_service_request 1 "s1" st0).bind (approve_service_request 0)).bind
      (request_service_removal 1 "s1")).bind (create_service_request 1 "s1")).map
      (fun s => (s.requests.filter (nonTerminalFor 1 "s1")).length)
      = some 2 := by decide

/-- C6 amended: in every reachable state each (user, service) pair has at
most one PENDING request, and `create_service_request` refuses exactly
when a PENDING or APPROVED request exists for the pair — a REMOVE_PENDING
request does not block creation, so "at most one non-terminal request per
pair" does not hold (see the counterexample). -/
theorem pending_unique_and_create_guard (s : DbState) (hreach : RegReachable s) :
    pendingUnique s ∧
    ∀ u sv, s.requests.any (fun r => r.userId == u && r.serviceId == sv &&
        (r.status == RequestStatus.pending || r.status == RequestStatus.approved)) = true →
      create_service_request u sv s = none := by
  refine ⟨regReachable_pendingUnique hreach, fun u sv hany => ?_⟩
  unfold create_service_request
  by_cases hsvc : s.services.any (fun svc => svc.id == sv) = false
  · rw [if_pos hsvc]
  · rw [if_neg hsvc, if_pos hany]

/-- C6 witness: the amended invariant at the concrete reachable
one-request state. -/
theorem pending_unique_and_create_guard_witness : pendingUnique stAfterCreate :=
  (pending_unique_and_create_guard stAfterCreate
    (RegReachable.step (RegReachable.init [svc1] [])
      (RegStep.create 1 "s1" st0 stAfterCreate (by decide)))).1

/-! ### pyInt? lemmas and the parse_service_url theorems (C9) -/

theorem mem_dropWhile_of_not {q : Char → Bool} :
    ∀ {l : List Char} {c : Char}, c ∈ l → q c = false → c ∈ l.dropWhile q := by
  intro l
  induction l with
  | nil => intro c hc _; exact absurd hc (List.not_mem_nil c)
  | cons a t ih =>
    intro c hc hq
    rw [List.dropWhile_cons]
    by_cases ha : q a = true
    · simp only [ha, if_true]
      rcases List.mem_cons.mp hc with rfl | hc
      · exact absurd ha (by simp [hq])
      · exact ih hc hq
    · have ha' : q a = false := by simpa using ha
      simp only [ha', Bool.false_eq_true, if_false]
      exact hc

theorem mem_pyStripWs {l : List Char} {c : Char} (hc : c ∈ l)
    (hw : pySpace c = false) : c ∈ pyStripWs l := by
  unfold pyStripWs
  rw [List.mem_reverse]
  exact mem_dropWhile_of_not (List.mem_reverse.mpr (mem_dropWhile_of_not hc hw)) hw

theorem pyDigitsGo_eq_none {c : Char} (hd : pyDigitVal? c = none) (hu : c ≠ '_') :
    ∀ {l : List Char}, c ∈ l → ∀ acc b, pyDigitsGo acc b l = none := by
  intro l
  induction l with
  | nil => intro hc; exact absurd hc (List.not_mem_nil c)
  | cons a rest ih =>
    intro hc acc b
    by_cases ha : a = '_'
    · subst ha
      have hcr : c ∈ rest := by
        rcases List.mem_cons.mp hc with rfl | h
        · exact absurd rfl hu
        · exact h
      simp only [pyDigitsGo, if_pos rfl]
      cases b
      · rfl
      · exact ih hcr acc false
    · simp only [pyDigitsGo, if_neg ha]
      cases hv : pyDigitVal? a with
      | none => rfl
      | some d =>
        have hcr : c ∈ rest := by
          rcases List.mem_cons.mp hc with rfl | h
          · rw [hd] at hv
            exact Option.noConfusion hv
          · exact h
        exact ih hcr _ true

theorem pyIntDigits?_eq_none {l : List Char} {c : Char} (hc : c ∈ l)
    (hd : pyDigitVal? c = none) (hu : c ≠ '_') : pyIntDigits? l = none := by
  have h1 : l.isEmpty = false := by
    cases l with
    | nil => exact absurd hc (List.not_mem_nil c)
    | cons a t => rfl
  unfold pyIntDigits?
  simp only [h1, Bool.false_eq_true, if_false]
  exact pyDigitsGo_eq_none hd hu hc 0 false

theorem pyInt?_eq_none_of_bad {p : String} {c : Char} (hc : c ∈ p.data)
    (hd : pyDigitVal? c = none) (hplus : c ≠ '+') (hminus : c ≠ '-')
    (hund : c ≠ '_') (hw : pySpace c = false) : pyInt? p = none := by
  have hmem : c ∈ pyStripWs p.data := mem_pyStripWs hc hw
  unfold pyInt?
  split
  · rename_i rest heq
    rw [heq] at hmem
    rcases List.mem_cons.mp hmem with rfl | hmem
    · exact absurd rfl hplus
    · rw [pyIntDigits?_eq_none hmem hd hund]
      rfl
  · rename_i rest heq
    rw [heq] at hmem
    rcases List.mem_cons.mp hmem with rfl | hmem
    · exact absurd rfl hminus
    · rw [pyIntDigits?_eq_none hmem hd hund]
      rfl
  · rw [pyIntDigits?_eq_none hmem hd hund]
    rfl

/-- C9 counterexample: for a URL with no path component the parser
returns an EMPTY path, not the claimed default `"/"`. -/
theorem parse_service_url_empty_path_default :
    parse_service_url "example.com" = ⟨"http", "example.com", none, "", false⟩
    ∧ (parse_service_url "example.com").path ≠ "/" := by decide

set_option maxHeartbeats 1000000 in
/-- C9 amended: for a host with none of `:/?#` in it, a scheme-less URL
parses with protocol defaulting to `http`, host unchanged, no port and
EMPTY path (not `"/"`); with an explicit `https` scheme and a `:port`
suffix the network location is split on its last colon, the port being
CPython `int(port_str)` (Unicode digits and underscore grouping
included) — `none` whenever the port string holds any character that is
not a decimal digit, sign, underscore or whitespace — and the host is
matched against the IPv4 regex. -/
theorem parse_service_url_behaviour (h p : String) (hne : h.data ≠ [])
    (hh : ∀ c ∈ h.data, c ≠ ':' ∧ c ≠ '/' ∧ c ≠ '?' ∧ c ≠ '#')
    (hp : ∀ c ∈ p.data, c ≠ ':' ∧ c ≠ '/' ∧ c ≠ '?' ∧ c ≠ '#') :
    parse_service_url h = ⟨"http", h, none, "", isIpHost h.data⟩
    ∧ parse_service_url ("https://" ++ h ++ ":" ++ p)
        = ⟨"https", h, pyInt? p, "", isIpHost h.data⟩
    ∧ (∀ c ∈ p.data, pyDigitVal? c = none → c ≠ '+' → c ≠ '-' → c ≠ '_' →
        pySpace c = false →
        (parse_service_url ("https://" ++ h ++ ":" ++ p)).port = none) := by
  have hie : h.data.isEmpty = false := by
    cases hd : h.data with
    | nil => exact absurd hd hne
    | cons a t => rfl
  have hpart1 : parse_service_url h = ⟨"http", h, none, "", isIpHost h.data⟩ := by
    have hne' : h ≠ "" := fun he => hne (by rw [he])
    have hp1 : charPrefixOf "http://".data h.data = false := by
      by_contra hc
      rw [Bool.not_eq_false] at hc
      exact (hh _ (charPrefixOf_mem hc (by decide))).1 rfl
    have hp2 : charPrefixOf "https://".data h.data = false := by
      by_contra hc
      rw [Bool.not_eq_false] at hc
      exact (hh _ (charPrefixOf_mem hc (by decide))).1 rfl
    have hps : charPrefixOf "https://".data ("http://".data ++ h.data) = false := rfl
    have hdrop : ("http://".data ++ h.data).drop 7 = h.data := rfl
    have htw : h.data.takeWhile (fun c => !netlocEnd c) = h.data := by
      apply takeWhile_all
      intro c hc
      obtain ⟨h1, h2, h3, h4⟩ := hh c hc
      simp [netlocEnd, h2, h3, h4]
    have hany : h.data.any (fun c => c == ':') = false :=
      any_colon_false (fun c hc => (hh c hc).1)
    unfold parse_service_url urlNetlocPath splitParamsCore
    rw [if_neg hne']
    simp only [hp1, hp2, Bool.or_self, Bool.false_eq_true, if_false, hps, hdrop,
      htw, List.drop_length, List.takeWhile_nil, List.any_nil, hany, hie,
      Bool.false_and, Bool.and_false, List.isEmpty_nil, Bool.not_true,
      Bool.true_eq_false]
  have hpart2 : parse_service_url ("https://" ++ h ++ ":" ++ p)
      = ⟨"https", h, pyInt? p, "", isIpHost h.data⟩ := by
    have hdata : ("https://" ++ h ++ ":" ++ p).data
        = 'h' :: 't' :: 't' :: 'p' :: 's' :: ':' :: '/' :: '/'
          :: (h.data ++ ':' :: p.data) := by
      simp [String.data_append, List.append_assoc]
    have hne2 : ("https://" ++ h ++ ":" ++ p) ≠ "" := by
      intro he
      have hd : ("https://" ++ h ++ ":" ++ p).data = [] := by rw [he]
      rw [hdata] at hd
      exact List.noConfusion hd
    have hpre1 : charPrefixOf "http://".data
        ('h' :: 't' :: 't' :: 'p' :: 's' :: ':' :: '/' :: '/'
          :: (h.data ++ ':' :: p.data)) = false := rfl
    have hpre2 : charPrefixOf "https://".data
        ('h' :: 't' :: 't' :: 'p' :: 's' :: ':' :: '/' :: '/'
          :: (h.data ++ ':' :: p.data)) = true := rfl
    have hdrop : ('h' :: 't' :: 't' :: 'p' :: 's' :: ':' :: '/' :: '/'
        :: (h.data ++ ':' :: p.data)).drop 8 = h.data ++ ':' :: p.data := rfl
    have htwh : (h.data ++ ':' :: p.data).takeWhile (fun c => !netlocEnd c)
        = h.data ++ ':' :: p.data := by
      apply takeWhile_all
      intro c hc
      rcases List.mem_append.mp hc with hc | hc
      · obtain ⟨_, h2, h3, h4⟩ := hh c hc
        simp [netlocEnd, h2, h3, h4]
      · rcases List.mem_cons.mp hc with rfl | hc
        · simp [netlocEnd]
        · obtain ⟨_, h2, h3, h4⟩ := hp c hc
          simp [netlocEnd, h2, h3, h4]
    have hanyc : (h.data ++ ':' :: p.data).any (fun c => c == ':') = true := by
      rw [List.any_eq_true]
      exact ⟨':', List.mem_append_right _ (List.mem_cons_self _ _), by simp⟩
    have hsplit : rsplitColon (h.data ++ ':' :: p.data) = some (h.data, p.data) :=
      rsplitColon_append (fun c hc => (hh c hc).1) (fun c hc => (hp c hc).1)
    unfold parse_service_url urlNetlocPath splitParamsCore
    rw [if_neg hne2]
    simp only [hdata, hpre1, hpre2, Bool.false_or, if_true, hdrop, htwh,
      List.drop_length, List.takeWhile_nil, List.any_nil, hanyc, hsplit, hie,
      Bool.false_and, Bool.and_false, List.isEmpty_nil, Bool.not_true,
      Bool.true_eq_false, Bool.false_eq_true, if_false]
  refine ⟨hpart1, hpart2, fun c hc hd hplus hminus hund hw => ?_⟩
  rw [hpart2]
  exact pyInt?_eq_none_of_bad hc hd hplus hminus hund hw

/-- C9 witness: the parser behaviour at a concrete host and a
non-numeric port string, whose port comes out as `none`. -/
theorem parse_service_url_behaviour_witness :
    (parse_service_url ("https://" ++ "myhost" ++ ":" ++ "8a")).port = none :=
  (parse_service_url_behaviour "myhost" "8a" (by decide) (by decide) (by decide)).2.2
    'a' (by decide) (by decide) (by decide) (by decide) (by decide) (by decide)

end ServiceHub
